import Mathlib

/-!
Shallow embedding of `src/flightaxis/connector.py` (FlightAxis Link simulator
connector).  Python floats are modelled as exact rationals (`ℚ`), Python
strings as Lean `String` / `List Char` (ASCII fragment — every string the
connector handles is ASCII), Python dicts as insertion-ordered association
lists, and raised exceptions as an `Err` value returned alongside the state
mutated so far (Python mutations performed before a `raise` persist on the
object).  The XML layer (`xml.etree.ElementTree`) is abstracted as a tree of
elements; `ET.fromstring` failure on a reply buffer is modelled by the absent
tree (`Option.none`).
-/

/-- Error kinds corresponding to the Python exceptions that can escape the
connector: `xml.etree` parse failure, `IndexError` (missing child element or
missing positional format argument), `ValueError` (from `float(...)`),
`TypeError` (subtraction involving a non-numeric value), `KeyError` (dict read
of an absent key). -/
inductive Err where
  | xmlError
  | indexError
  | valueError
  | typeError
  | keyError
  deriving DecidableEq, Repr

/-- A telemetry value: Python `float` (exact rational model), `bool`, or `str`.
These are the value kinds produced by `parse_tail` and stored in `self.state`. -/
inductive TVal where
  | num (q : ℚ)
  | bool (b : Bool)
  | str (s : String)
  deriving DecidableEq, Repr

/-- The source function is_number: `s.replace('.', '').replace('-', '').isdigit()`.
Removing every `'.'` and then every `'-'` is modelled by two successive
filters; Python `str.isdigit` on the ASCII fragment is: non-empty and all
characters are decimal digits. -/
def is_number (s : String) : Bool :=
  let t := (s.data.filter (fun c => c != '.')).filter (fun c => c != '-')
  !t.isEmpty && t.all Char.isDigit

/-- Numeric value of a digit character (`'0'` ↦ 0, …, `'9'` ↦ 9). -/
def digitVal (c : Char) : ℕ := c.toNat - 48

/-- Accumulating decimal reading of a digit list (Horner form), the value
Python assigns to a digit string. -/
def natValAux (a : ℕ) : List Char → ℕ
  | [] => a
  | c :: cs => natValAux (10 * a + digitVal c) cs

/-- Decimal value of a digit list. -/
def natVal (cs : List Char) : ℕ := natValAux 0 cs

/-- Python `float(...)` on an unsigned string made only of digits and at most
one dot: digits, optionally a dot followed by digits, at least one digit
overall.  The value of `"ip.frac"` is `ip + frac / 10 ^ |frac|`, written as a
single integer fraction (`Rat.divInt`).  Returns `none` where `float(...)`
raises `ValueError`. -/
def pyFloatPos (cs : List Char) : Option ℚ :=
  let ip := cs.takeWhile Char.isDigit
  let rest := cs.dropWhile Char.isDigit
  match rest with
  | [] => if ip.isEmpty then none else some (Rat.divInt (natVal ip) 1)
  | '.' :: frac =>
      if frac.all Char.isDigit && !(ip.isEmpty && frac.isEmpty) then
        some (Rat.divInt (natVal ip * 10 ^ frac.length + natVal frac) (10 ^ frac.length))
      else none
  | _ => none

/-- Python `float(...)` restricted to the character set `is_number` admits
(digits, `'.'`, `'-'`): an optional single leading minus sign followed by an
unsigned digits-and-one-dot literal.  (`float` also accepts `inf`, exponents,
whitespace, `'+'` — none of which pass `is_number`, so they never reach the
float parse inside `parse_tail`.) -/
def pyFloat (cs : List Char) : Option ℚ :=
  match cs with
  | [] => none
  | c :: rest => if c = '-' then (pyFloatPos rest).map (fun x => -x) else pyFloatPos (c :: rest)

/-- The source function parse_tail: numeric-looking strings are parsed with
`float` (a parse failure raises `ValueError`), `"true"`/`"false"` become
booleans, everything else passes through as a string. -/
def parse_tail (s : String) : Except Err TVal :=
  if is_number s then
    match pyFloat s.data with
    | some q => .ok (.num q)
    | none => .error .valueError
  else if s = "true" then .ok (.bool true)
  else if s = "false" then .ok (.bool false)
  else .ok (.str s)

/-- Digit character for `d < 10` (clamped at `'9'`). -/
def digitChar (d : ℕ) : Char :=
  match d with
  | 0 => '0' | 1 => '1' | 2 => '2' | 3 => '3' | 4 => '4'
  | 5 => '5' | 6 => '6' | 7 => '7' | 8 => '8' | _ => '9'

/-- Decimal digit expansion of a natural number, most significant first,
prepended to `acc`; structural recursion on a fuel bound (any fuel above `n`
suffices, since `n` loses a digit each step). -/
def natToDigitsAux : ℕ → ℕ → List Char → List Char
  | 0, _, acc => acc
  | fuel + 1, n, acc =>
      if n < 10 then digitChar n :: acc
      else natToDigitsAux fuel (n / 10) (digitChar (n % 10) :: acc)

/-- Decimal digit expansion of a natural number, most significant first. -/
def natToDigits (n : ℕ) : List Char := natToDigitsAux (n + 1) n []

/-- Exactly four fractional digits, zero padded, of `k < 10000` — the digits
printed after the point by a `{:.4f}` placeholder of the `ExchangeData`
template. -/
def frac4 (k : ℕ) : List Char :=
  [digitChar (k / 1000 % 10), digitChar (k / 100 % 10),
   digitChar (k / 10 % 10), digitChar (k % 10)]

/-- Computes the half-up rounding of `q * 10000` to an integer, `⌊q * 10000 + 1/2⌋`,
computed directly on the numerator and denominator so it evaluates by integer
arithmetic (`/` on `ℤ` rounds towards −∞ for this positive divisor). -/
def round4Int (q : ℚ) : ℤ := (2 * (q.num * 10000) + q.den) / (2 * (q.den : ℤ))

/-- The rational `q` rounded to 4 decimal places: the value denoted by the `{:.4f}`-formatted
text of `q`. -/
def round4 (q : ℚ) : ℚ := Rat.divInt (round4Int q) 10000

/-- Python `"{:.4f}".format(q)`: round to 4 decimal places and print sign,
integer part, point, and exactly four fractional digits. -/
def fmt4 (q : ℚ) : String :=
  let n : ℤ := round4Int q
  let m : ℕ := n.natAbs
  String.mk ((if n < 0 then ['-'] else []) ++
    natToDigits (m / 10000) ++ '.' :: frac4 (m % 10000))

/-! ## XML trees and the telemetry state store -/

/-- An XML element as exposed by `xml.etree.ElementTree`: a tag, the text
content, and the list of child elements (attributes are never read by the
connector). -/
inductive XTree where
  | mk (tag : String) (text : String) (children : List XTree)

/-- Element tag. -/
def XTree.tag : XTree → String
  | .mk t _ _ => t

/-- Element text. -/
def XTree.text : XTree → String
  | .mk _ t _ => t

/-- Child elements in document order. -/
def XTree.children : XTree → List XTree
  | .mk _ _ c => c

/-- The telemetry state store `self.state`: a Python dict modelled as an
insertion-ordered association list. -/
abbrev StateMap := List (String × TVal)

/-- Python dict assignment `d[k] = v`: overwrite in place if the key exists,
else append the new key at the end. -/
def dictSet : StateMap → String → TVal → StateMap
  | [], k, v => [(k, v)]
  | (k0, v0) :: rest, k, v =>
      if k0 = k then (k, v) :: rest else (k0, v0) :: dictSet rest k v

/-- Python dict read `d[k]` (`none` models a `KeyError`). -/
def dictGet : StateMap → String → Option TVal
  | [], _ => none
  | (k0, v0) :: rest, k => if k = k0 then some v0 else dictGet rest k

/-- Python `d.keys()` in insertion order. -/
def keys (st : StateMap) : List String := st.map Prod.fst

/-- The state store as built by `FlightAxisConnector.__init__` (lines 172-231
of the source, transcribed verbatim). -/
def initState : StateMap := [
  ("rcin0", .num (1/2)),
  ("rcin1", .num (1/2)),
  ("rcin2", .num 0),
  ("rcin3", .num (1/2)),
  ("rcin4", .num 0),
  ("rcin5", .num 0),
  ("rcin6", .num 0),
  ("rcin7", .num 0),
  ("rcin8", .num 0),
  ("rcin9", .num 0),
  ("rcin10", .num 0),
  ("rcin11", .num 0),
  ("m-currentPhysicsTime-SEC", .num 0),
  ("m-currentPhysicsSpeedMultiplier", .num 1),
  ("m-airspeed-MPS", .num 0),
  ("m-altitudeASL-MTR", .num 0),
  ("m-altitudeAGL-MTR", .num 0),
  ("m-groundspeed-MPS", .num 0),
  ("m-pitchRate-DEGpSEC", .num 0),
  ("m-rollRate-DEGpSEC", .num 0),
  ("m-yawRate-DEGpSEC", .num 0),
  ("m-azimuth-DEG", .num 0),
  ("m-inclination-DEG", .num 0),
  ("m-roll-DEG", .num 0),
  ("m-orientationQuaternion-X", .num 0),
  ("m-orientationQuaternion-Y", .num 0),
  ("m-orientationQuaternion-Z", .num 0),
  ("m-orientationQuaternion-W", .num 0),
  ("m-aircraftPositionX-MTR", .num 0),
  ("m-aircraftPositionY-MTR", .num 0),
  ("m-velocityWorldU-MPS", .num 0),
  ("m-velocityWorldV-MPS", .num 0),
  ("m-velocityWorldW-MPS", .num 0),
  ("m-velocityBodyU-MPS", .num 0),
  ("m-velocityBodyV-MPS", .num 0),
  ("m-velocityBodyW-MPS", .num 0),
  ("m-accelerationWorldAX-MPS2", .num 0),
  ("m-accelerationWorldAY-MPS2", .num 0),
  ("m-accelerationWorldAZ-MPS2", .num 0),
  ("m-accelerationBodyAX-MPS2", .num 0),
  ("m-accelerationBodyAY-MPS2", .num 0),
  ("m-accelerationBodyAZ-MPS2", .num 0),
  ("m-windX-MPS", .num 0),
  ("m-windY-MPS", .num 0),
  ("m-windZ-MPS", .num 0),
  ("m-propRPM", .num 0),
  ("m-heliMainRotorRPM", .num (-1)),
  ("m-batteryVoltage-VOLTS", .num (-1)),
  ("m-batteryCurrentDraw-AMPS", .num (-1)),
  ("m-batteryRemainingCapacity-MAH", .num (-1)),
  ("m-fuelRemaining-OZ", .num 0),
  ("m-isLocked", .bool false),
  ("m-hasLostComponents", .bool false),
  ("m-anEngineIsRunning", .bool true),
  ("m-isTouchingGround", .bool true),
  ("m-flightAxisControllerIsActive", .bool false),
  ("m-currentAircraftStatus", .str "CAS-FLYING"),
  ("m-resetButtonHasBeenPressed", .bool false)]

/-- The key of the physics-time telemetry tag. -/
def physKey : String := "m-currentPhysicsTime-SEC"

/-! ## parse_reply -/

/-- The inner loop over one `m-channelValues-0to1` block: every child tagged
`item` is coerced with `parse_tail` and stored under `"rcin" + str(counter)`;
the counter advances only on `item` children.  A `parse_tail` failure raises,
keeping the mutations already made. -/
def runItems : List XTree → ℕ → StateMap → StateMap × Option Err
  | [], _, st => (st, none)
  | it :: rest, c, st =>
      if it.tag = "item" then
        match parse_tail it.text with
        | .error e => (st, some e)
        | .ok v => runItems rest (c + 1) (dictSet st ("rcin" ++ toString c) v)
      else runItems rest c st

/-- The outer loop over `some_data` (`root[0][0][0]`): each child whose tag is
`m-channelValues-0to1` restarts the item counter at 0 and runs the item loop. -/
def runChannels : List XTree → StateMap → StateMap × Option Err
  | [], st => (st, none)
  | stuff :: rest, st =>
      if stuff.tag = "m-channelValues-0to1" then
        match runItems stuff.children 0 st with
        | (st1, some e) => (st1, some e)
        | (st1, none) => runChannels rest st1
      else runChannels rest st

/-- The loop over an aircraft-state / notification group: a child's tag is
stored only if it is already a key of the state dict (`item.tag in
self.state.keys()`); unknown tags are skipped. -/
def runTags : List XTree → StateMap → StateMap × Option Err
  | [], st => (st, none)
  | it :: rest, st =>
      if (keys st).contains it.tag then
        match parse_tail it.text with
        | .error e => (st, some e)
        | .ok v => runTags rest (dictSet st it.tag v)
      else runTags rest st

/-- The part of parse_reply running on a reply whose XML parse succeeded, navigating the fixed
structure `root[0][0][0]` (channel values), `root[0][0][1]` (aircraft state),
`root[0][0][2]` (notification).  A missing child raises `IndexError` at the
point of access, keeping every mutation already made. -/
def parseRoot (root : XTree) (st : StateMap) : StateMap × Option Err :=
  match root.children[0]? with
  | none => (st, some .indexError)
  | some r0 =>
  match r0.children[0]? with
  | none => (st, some .indexError)
  | some r00 =>
  match r00.children[0]? with
  | none => (st, some .indexError)
  | some someData =>
  match runChannels someData.children st with
  | (st1, some e) => (st1, some e)
  | (st1, none) =>
  match r00.children[1]? with
  | none => (st1, some .indexError)
  | some aircraftState =>
  match runTags aircraftState.children st1 with
  | (st2, some e) => (st2, some e)
  | (st2, none) =>
  match r00.children[2]? with
  | none => (st2, some .indexError)
  | some notification =>
  runTags notification.children st2

/-- The method FlightAxisConnector.parse_reply: reconstruct and parse the XML payload
(the line splitting and `ET.fromstring` are abstracted into the `Option XTree`
argument — `none` is a reply buffer that does not parse as XML and raises),
then apply the three groups to the state. -/
def parse_reply (reply : Option XTree) (st : StateMap) : StateMap × Option Err :=
  match reply with
  | none => (st, some .xmlError)
  | some root => parseRoot root st

/-! ## exchange_data -/

/-- The connector session object: the fields of `FlightAxisConnector` set in
`__init__` (the commented-out socket plumbing aside). -/
structure Session where
  servos : List ℚ
  controller_started : Bool
  frame_counter : ℕ
  activation_frame_counter : ℕ
  average_frame_time_s : ℚ
  socket_frame_counter : ℕ
  state : StateMap

/-- The session as built by `FlightAxisConnector.__init__`. -/
def initSession : Session :=
  { servos := List.replicate 12 0
    controller_started := false
    frame_counter := 0
    activation_frame_counter := 0
    average_frame_time_s := 0
    socket_frame_counter := 0
    state := initState }

/-- The encoding step of exchange_data, the call ACTION_FMT of ExchangeData formatted with servo: the template holds exactly 12
positional `{:.4f}` placeholders, so fewer than 12 values raise `IndexError`
before any transport request, while surplus values beyond the first 12 are
silently ignored by `str.format`.  The result is the list of the 12 formatted
`<item>` payloads (the fixed surrounding envelope text carries no data). -/
def format_exchange_data (vals : List ℚ) : Except Err (List String) :=
  if vals.length < 12 then .error .indexError
  else .ok ((vals.take 12).map fmt4)

/-- Python subtraction applied to two stored telemetry values
(`bool` acts as 0/1; a string operand raises `TypeError`). -/
def tvSub : TVal → TVal → Except Err ℚ
  | .num a, .num b => .ok (a - b)
  | .num a, .bool b => .ok (a - (if b then 1 else 0))
  | .bool a, .num b => .ok ((if a then 1 else 0) - b)
  | .bool a, .bool b => .ok ((if a then 1 else 0) - (if b then 1 else 0))
  | _, _ => .error .typeError

/-- The method FlightAxisConnector.exchange_data: format the control vector, send it
(the transport is the `reply` argument: `none` is an empty/absent reply, which
`if reply:` treats as falsy), and on a non-empty reply record the previous
physics time, parse the reply into the state, and feed the physics-time delta
to the frame-time smoothing; `lastPhysicsTime` bookkeeping, the smoothing
update and the `socket_frame_counter` increment all live inside the non-empty
branch.  The returned pair is the session as mutated so far together with the
raised exception, if any. -/
def exchange_data (s : Session) (control : List ℚ) (reply : Option (Option XTree)) :
    Session × Option Err :=
  match format_exchange_data control with
  | .error e => (s, some e)
  | .ok _msg =>
  match reply with
  | none => (s, none)
  | some buf =>
  match dictGet s.state physKey with
  | none => (s, some .keyError)
  | some lastt =>
  match parse_reply buf s.state with
  | (st1, some e) => ({ s with state := st1 }, some e)
  | (st1, none) =>
  match dictGet st1 physKey with
  | none => ({ s with state := st1 }, some .keyError)
  | some newt =>
  match tvSub newt lastt with
  | .error e => ({ s with state := st1 }, some e)
  | .ok dt =>
    let avg :=
      if 0 < dt ∧ dt < 1/10 then
        (if s.average_frame_time_s < 1/1000000 then dt else s.average_frame_time_s)
          * (98/100) + dt * (2/100)
      else s.average_frame_time_s
    ({ s with
        state := st1
        average_frame_time_s := avg
        socket_frame_counter := s.socket_frame_counter + 1 }, none)

/-- A reply document of the shape the simulator sends back: the body's first
child holds, in order, the control-inputs group (whose channel-values block
lists the given items), the aircraft-state group and the notification group. -/
def mkExchangeReply (items : List String) (aircraft : List XTree)
    (notification : List XTree) : XTree :=
  .mk "Envelope" "" [.mk "Body" "" [.mk "ReturnData" ""
    [.mk "pControlInputs" ""
      [.mk "m-channelValues-0to1" "" (items.map (fun t => .mk "item" t []))],
     .mk "aircraftState" "" aircraft,
     .mk "notification" "" notification]]]

deriving instance DecidableEq for Except

/-- Whether a reply fails before the channel-values group is reached: the
buffer does not parse as XML, or one of the three child accesses on the way to
`root[0][0][0]` raises `IndexError`.  Up to this point `parse_reply` has not
touched the state. -/
def earlyFail (reply : Option XTree) : Bool :=
  match reply with
  | none => true
  | some root =>
    match root.children[0]? with
    | none => true
    | some r0 =>
    match r0.children[0]? with
    | none => true
    | some r00 => r00.children[0]?.isNone

/-- Number of `item`-tagged children of a channel-values block. -/
def countItems (l : List XTree) : ℕ := (l.filter (fun t => t.tag == "item")).length

/-- Every channel-values block reachable by `parse_reply` carries at most 12
`item` children (vacuously true when the reply fails XML parsing or
navigation). -/
def blocksOK (reply : Option XTree) : Bool :=
  match reply with
  | none => true
  | some root =>
    match root.children[0]? with
    | none => true
    | some r0 =>
    match r0.children[0]? with
    | none => true
    | some r00 =>
    match r00.children[0]? with
    | none => true
    | some someData =>
      someData.children.all
        (fun b => b.tag != "m-channelValues-0to1" || decide (countItems b.children ≤ 12))

example : parse_tail "1000" = .ok (.num (Rat.divInt 1000 1)) := by decide
example : parse_tail "1.2.3" = .error .valueError := by decide
example : parse_tail "--1" = .error .valueError := by decide
example : parse_tail "true" = .ok (.bool true) := by decide
example : parse_tail "false" = .ok (.bool false) := by decide
example : parse_tail "CAS-FLYING" = .ok (.str "CAS-FLYING") := by decide
example : parse_tail "0.5" = .ok (.num (Rat.divInt 5 10)) := by decide
example : fmt4 0 = "0.0000" := by decide
example : fmt4 (Rat.divInt 1 2) = "0.5000" := by decide
example : fmt4 (Rat.divInt (-1) 2) = "-0.5000" := by decide
example : fmt4 (Rat.divInt 25 2) = "12.5000" := by decide
example : fmt4 (Rat.divInt 1 3) = "0.3333" := by decide
example : dictGet initState "rcin0" = some (.num (1/2)) := rfl
example : dictGet initState "rcin4" = some (.num 0) := rfl
example :
    (parse_reply (some (mkExchangeReply ["0.5"] [] [])) initState).2 = none := by decide
example :
    dictGet (parse_reply (some (mkExchangeReply ["0.5"] [] [])) initState).1 "rcin0"
      = some (.num (Rat.divInt 5 10)) := by decide

/-! ## General lemmas about the store -/

theorem dictGet_dictSet (st : StateMap) (k : String) (v : TVal) (k2 : String) :
    dictGet (dictSet st k v) k2 = if k2 = k then some v else dictGet st k2 := by
  induction st with
  | nil => simp [dictSet, dictGet]
  | cons hd tl ih =>
      obtain ⟨k0, v0⟩ := hd
      by_cases h0 : k0 = k
      · subst h0
        by_cases h2 : k2 = k0 <;> simp [dictSet, dictGet, h2]
      · by_cases h2 : k2 = k0
        · subst h2
          simp [dictSet, if_neg h0, dictGet, h0]
        · simp [dictSet, if_neg h0, dictGet, h2, ih]

theorem keys_dictSet_of_mem {st : StateMap} {k : String} (h : k ∈ keys st) (v : TVal) :
    keys (dictSet st k v) = keys st := by
  induction st with
  | nil => simp [keys] at h
  | cons hd tl ih =>
      obtain ⟨k0, v0⟩ := hd
      by_cases h0 : k0 = k
      · subst h0
        simp [dictSet, keys]
      · have hk : k ∈ keys tl := by
          rcases (by simpa [keys] using h) with h1 | h1
          · exact absurd h1.symm h0
          · simpa [keys] using h1
        have htl := ih hk
        simp only [dictSet, if_neg h0]
        simp only [keys, List.map_cons] at htl ⊢
        rw [htl]

theorem keys_runTags (l : List XTree) (st : StateMap) :
    keys (runTags l st).1 = keys st := by
  induction l generalizing st with
  | nil => rfl
  | cons it rest ih =>
      unfold runTags
      by_cases hc : (keys st).contains it.tag
      · rw [if_pos hc]
        have hm : it.tag ∈ keys st := by simpa using hc
        cases hp : parse_tail it.text with
        | error e => rfl
        | ok v => rw [ih, keys_dictSet_of_mem hm]
      · rw [if_neg hc]
        exact ih st

theorem keys_runItems (l : List XTree) (c : ℕ) (st : StateMap)
    (hle : c + countItems l ≤ 12)
    (hK : ∀ j, j < 12 → ("rcin" ++ toString j) ∈ keys st) :
    keys (runItems l c st).1 = keys st := by
  induction l generalizing c st with
  | nil => rfl
  | cons it rest ih =>
      unfold runItems
      by_cases ht : it.tag = "item"
      · rw [if_pos ht]
        have hcount : countItems (it :: rest) = countItems rest + 1 := by
          simp [countItems, List.filter_cons, ht]
        have hc12 : c < 12 := by omega
        have hmem : ("rcin" ++ toString c) ∈ keys st := hK c hc12
        cases hp : parse_tail it.text with
        | error e => rfl
        | ok v =>
            have hkeys := keys_dictSet_of_mem hmem v
            rw [ih (c + 1) _ (by omega) (fun j hj => hkeys ▸ hK j hj), hkeys]
      · rw [if_neg ht]
        have hcount : countItems (it :: rest) = countItems rest := by
          simp [countItems, List.filter_cons, ht]
        exact ih c st (by omega) hK

theorem keys_runChannels (l : List XTree) (st : StateMap)
    (hB : ∀ b ∈ l, b.tag = "m-channelValues-0to1" → countItems b.children ≤ 12)
    (hK : ∀ j, j < 12 → ("rcin" ++ toString j) ∈ keys st) :
    keys (runChannels l st).1 = keys st := by
  induction l generalizing st with
  | nil => rfl
  | cons stuff rest ih =>
      unfold runChannels
      by_cases ht : stuff.tag = "m-channelValues-0to1"
      · rw [if_pos ht]
        have hkeys : keys (runItems stuff.children 0 st).1 = keys st :=
          keys_runItems _ 0 st (by simpa using hB stuff (by simp) ht) hK
        cases hr : runItems stuff.children 0 st with
        | mk st1 err =>
            have h1 : keys st1 = keys st := by simpa [hr] using hkeys
            cases err with
            | none =>
                exact (ih st1 (fun b hb => hB b (by simp [hb]))
                  (fun j hj => h1 ▸ hK j hj)).trans h1
            | some e => exact h1
      · rw [if_neg ht]
        exact ih st (fun b hb => hB b (by simp [hb])) hK

/-! ## Claim C10: frame effect of exchange_data -/

/-- C10: for every control input and every transport outcome (empty reply,
well-formed reply, or decode error), `exchange_data` leaves `servos`,
`controller_started`, `frame_counter` and `activation_frame_counter`
unchanged; only the state mapping, the smoothed frame time and
`socket_frame_counter` can be modified by an exchange. -/
theorem exchange_data_frame_fields (s : Session) (control : List ℚ)
    (reply : Option (Option XTree)) :
    (exchange_data s control reply).1.servos = s.servos ∧
    (exchange_data s control reply).1.controller_started = s.controller_started ∧
    (exchange_data s control reply).1.frame_counter = s.frame_counter ∧
    (exchange_data s control reply).1.activation_frame_counter
      = s.activation_frame_counter := by
  unfold exchange_data
  repeat' split
  all_goals exact ⟨rfl, rfl, rfl, rfl⟩

/-! ## Claim C5: empty reply -/

/-- C5 (amended): an exchange whose transport returns an empty/absent reply
raises no error and leaves the entire session — the state store and every
counter, including the smoothed frame time and `socket_frame_counter` —
completely unchanged; contrary to the claim, no exchange-attempt counter is
incremented, because the `socket_frame_counter` increment sits inside the
non-empty-reply branch and `frame_counter` is never incremented at all. -/
theorem exchange_data_empty_reply (s : Session) (control : List ℚ) (msg : List String)
    (h : format_exchange_data control = .ok msg) :
    exchange_data s control none = (s, none) := by
  unfold exchange_data
  simp only [h]

/-- Witness for C5 at a concrete session and control vector. -/
theorem exchange_data_empty_reply_witness :
    exchange_data initSession (List.replicate 12 0) none = (initSession, none) :=
  exchange_data_empty_reply initSession (List.replicate 12 0)
    (List.replicate 12 "0.0000") (by decide)

/-- Counterexample to C5 as stated: on an empty reply the result session is the
input session itself, so no counter whatsoever has been incremented. -/
theorem c5_no_counter_increment_counterexample :
    exchange_data initSession (List.replicate 12 0) none = (initSession, none) ∧
    initSession.frame_counter = 0 ∧
    initSession.socket_frame_counter = 0 ∧
    initSession.activation_frame_counter = 0 :=
  ⟨rfl, rfl, rfl, rfl⟩

/-! ## Claim C4: control vector length -/

/-- C4 (amended): a control vector shorter than 12 raises `IndexError` from the
positional format before any transport I/O (the same error for every transport
outcome, with the session untouched); but a vector longer than 12 is silently
accepted — `str.format` ignores surplus arguments — and the exchange proceeds
with the first 12 values. -/
theorem format_exchange_data_length_spec (vals : List ℚ) :
    (vals.length < 12 → ∀ (s : Session) (reply : Option (Option XTree)),
        exchange_data s vals reply = (s, some .indexError)) ∧
    (12 ≤ vals.length → format_exchange_data vals = .ok ((vals.take 12).map fmt4)) := by
  constructor
  · intro h s reply
    unfold exchange_data format_exchange_data
    simp only [if_pos h]
  · intro h
    unfold format_exchange_data
    rw [if_neg (by omega)]

/-- Witness for C4 at a concrete 3-element vector. -/
theorem format_exchange_data_length_witness :
    exchange_data initSession [0, 0, 0] none = (initSession, some .indexError) :=
  (format_exchange_data_length_spec [0, 0, 0]).1 (by norm_num) initSession none

/-- Counterexample to C4 as stated: a 13-element vector is encoded without any
error and the exchange completes normally, instead of being rejected. -/
theorem c4_overlong_vector_counterexample :
    format_exchange_data (List.replicate 13 0) = .ok (List.replicate 12 "0.0000") ∧
    exchange_data initSession (List.replicate 13 0) none = (initSession, none) :=
  ⟨by decide, rfl⟩

/-! ## Claim C6: default channel values -/

/-- C6 (amended): in a freshly constructed store, channels `rcin0`, `rcin1` and
`rcin3` default to mid-stick `0.5`, while the throttle-like channel `rcin2`
and channels `rcin4` through `rcin11` all default to `0.0`. -/
theorem initState_channel_defaults :
    dictGet initState "rcin0" = some (.num (1/2)) ∧
    dictGet initState "rcin1" = some (.num (1/2)) ∧
    dictGet initState "rcin3" = some (.num (1/2)) ∧
    dictGet initState "rcin2" = some (.num 0) ∧
    dictGet initState "rcin4" = some (.num 0) ∧
    dictGet initState "rcin5" = some (.num 0) ∧
    dictGet initState "rcin6" = some (.num 0) ∧
    dictGet initState "rcin7" = some (.num 0) ∧
    dictGet initState "rcin8" = some (.num 0) ∧
    dictGet initState "rcin9" = some (.num 0) ∧
    dictGet initState "rcin10" = some (.num 0) ∧
    dictGet initState "rcin11" = some (.num 0) :=
  ⟨rfl, rfl, rfl, rfl, rfl, rfl, rfl, rfl, rfl, rfl, rfl, rfl⟩

/-- Counterexample to C6 as stated: `rcin4` is not the throttle-like channel,
yet its default is `0.0`, not `0.5`. -/
theorem c6_nonthrottle_zero_counterexample :
    dictGet initState "rcin4" = some (.num 0) ∧
    dictGet initState "rcin4" ≠ some (.num (1/2)) := by
  refine ⟨rfl, ?_⟩
  rw [show dictGet initState "rcin4" = some (.num 0) from rfl]
  simp only [ne_eq, Option.some.injEq, TVal.num.injEq]
  norm_num

/-! ## Claim C1: malformed replies -/

/-- C1 (amended): a reply buffer that cannot be parsed as XML, or whose parsed
document already lacks the navigation path to the channel-values group
(`root[0][0][0]`), raises a single error for that exchange and leaves the
telemetry state store entirely unchanged.  (When the fixed structure fails
only after the channel-values group has been processed — a missing
aircraft-state or notification group, or a coercion failure mid-batch — the
error is still raised, but updates already applied remain visible; see the
counterexample.) -/
theorem parse_reply_early_fail_unchanged (reply : Option XTree) (st : StateMap)
    (h : earlyFail reply = true) :
    ∃ e, parse_reply reply st = (st, some e) := by
  cases reply with
  | none => exact ⟨.xmlError, rfl⟩
  | some root =>
      unfold earlyFail at h
      unfold parse_reply parseRoot
      cases h0 : root.children[0]? with
      | none => exact ⟨.indexError, by simp [h0]⟩
      | some r0 =>
          simp only [h0] at h
          cases h1 : r0.children[0]? with
          | none => exact ⟨.indexError, by simp [h0, h1]⟩
          | some r00 =>
              simp only [h1] at h
              cases h2 : r00.children[0]? with
              | none => exact ⟨.indexError, by simp [h0, h1, h2]⟩
              | some sd => simp [h2] at h

/-- Witness for C1 at a concrete unparseable buffer. -/
theorem parse_reply_early_fail_witness :
    ∃ e, parse_reply none initState = (initState, some e) :=
  parse_reply_early_fail_unchanged none initState rfl

/-- Counterexample to C1 as stated: a well-formed XML document that contains a
parseable channel-values group but no aircraft-state group raises
`IndexError`, yet `rcin0` has already been overwritten — the store is not left
unchanged by this structurally malformed reply. -/
theorem c1_partial_update_counterexample :
    (parse_reply (some (.mk "a" "" [.mk "b" "" [.mk "c" "" [.mk "d" ""
        [.mk "m-channelValues-0to1" "" [.mk "item" "0.9" []]]]]])) initState).2
      = some .indexError ∧
    dictGet (parse_reply (some (.mk "a" "" [.mk "b" "" [.mk "c" "" [.mk "d" ""
        [.mk "m-channelValues-0to1" "" [.mk "item" "0.9" []]]]]])) initState).1 "rcin0"
      = some (.num (Rat.divInt 9 10)) ∧
    dictGet initState "rcin0" = some (.num (1/2)) ∧
    (Rat.divInt 9 10 : ℚ) ≠ 1/2 := by
  refine ⟨by decide, by decide, rfl, by norm_num [Rat.divInt_eq_div]⟩

/-! ## Claim C2: the key set -/

/-- C2 (amended): tags arriving in the aircraft-state and notification groups
that are not already keys of the store are silently dropped and never
inserted, and the key set is preserved by `parse_reply` whenever every
channel-values block of the reply carries at most 12 `item` elements; the
positional channel-values block, however, writes `"rcin" + str(counter)`
without a membership check, so a block with more than 12 items does insert new
keys (see the counterexample). -/
theorem parse_reply_keys_preserved (reply : Option XTree) (st : StateMap)
    (hB : blocksOK reply = true)
    (hK : ∀ j, j < 12 → ("rcin" ++ toString j) ∈ keys st) :
    keys (parse_reply reply st).1 = keys st := by
  cases reply with
  | none => rfl
  | some root =>
      unfold blocksOK at hB
      unfold parse_reply parseRoot
      cases h0 : root.children[0]? with
      | none => simp [h0]
      | some r0 =>
        simp only [h0] at hB ⊢
        cases h1 : r0.children[0]? with
        | none => simp [h1]
        | some r00 =>
          simp only [h1] at hB ⊢
          cases h2 : r00.children[0]? with
          | none => simp [h2]
          | some sd =>
            simp only [h2] at hB ⊢
            have hBlocks : ∀ b ∈ sd.children,
                b.tag = "m-channelValues-0to1" → countItems b.children ≤ 12 := by
              intro b hb htag
              have hball := List.all_eq_true.mp hB b hb
              simp only [htag, bne_self_eq_false, Bool.false_or,
                decide_eq_true_eq] at hball
              exact hball
            have hch := keys_runChannels sd.children st hBlocks hK
            cases hr : runChannels sd.children st with
            | mk st1 err =>
              rw [hr] at hch
              cases err with
              | some e => simp only [hr]; simpa using hch
              | none =>
                simp only [hr]
                cases h3 : r00.children[1]? with
                | none => simp only [h3]; simpa using hch
                | some aircraft =>
                  simp only [h3]
                  have hT := keys_runTags aircraft.children st1
                  cases hr2 : runTags aircraft.children st1 with
                  | mk st2 err2 =>
                    rw [hr2] at hT
                    have hkeys2 : keys st2 = keys st := by
                      simpa using hT.trans (by simpa using hch)
                    cases err2 with
                    | some e => simp only [hr2]; simpa using hkeys2
                    | none =>
                      simp only [hr2]
                      cases h4 : r00.children[2]? with
                      | none => simp only [h4]; simpa using hkeys2
                      | some notif =>
                        simp only [h4]
                        have hT3 := keys_runTags notif.children st2
                        rw [hT3]
                        exact hkeys2

/-- Witness for C2 at a concrete reply with a single channel value. -/
theorem parse_reply_keys_witness :
    keys (parse_reply (some (mkExchangeReply ["0.5"] [] [])) initState).1
      = keys initState :=
  parse_reply_keys_preserved (some (mkExchangeReply ["0.5"] [] [])) initState
    (by decide) (by decide)

/-- Counterexample to C2 as stated: a reply whose channel-values block lists 13
items decodes without error but inserts the fresh key `rcin12` into the store,
so the key set does grow at runtime. -/
theorem c2_key_insertion_counterexample :
    (keys initState).contains "rcin12" = false ∧
    (parse_reply (some (mkExchangeReply (List.replicate 13 "0.1") [] []))
        initState).2 = none ∧
    (keys (parse_reply (some (mkExchangeReply (List.replicate 13 "0.1") [] []))
        initState).1).contains "rcin12" = true :=
  ⟨by decide, by decide, by decide⟩

/-! ## Claim C3: seeding of the smoothed frame time -/

/-- C3: when the smoothed inter-frame average is still below the `1e-6`
threshold and an exchange produces an accepted physics-time delta `dt` with
`0 < dt < 0.1`, the smoothed average after that exchange equals that `dt`
exactly: the code seeds the average with `dt` before blending, and
`dt * 0.98 + dt * 0.02 = dt`. -/
theorem exchange_data_seed_average (s : Session) (control : List ℚ)
    (buf : Option XTree) (msg : List String) (lastt : TVal) (st1 : StateMap)
    (newt : TVal) (dt : ℚ)
    (h1 : format_exchange_data control = .ok msg)
    (h2 : dictGet s.state physKey = some lastt)
    (h3 : parse_reply buf s.state = (st1, none))
    (h4 : dictGet st1 physKey = some newt)
    (h5 : tvSub newt lastt = .ok dt)
    (h6 : 0 < dt ∧ dt < 1/10)
    (h7 : s.average_frame_time_s < 1/1000000) :
    (exchange_data s control (some buf)).1.average_frame_time_s = dt ∧
    (exchange_data s control (some buf)).2 = none := by
  have hred : exchange_data s control (some buf)
      = ({ s with
            state := st1
            average_frame_time_s :=
              if 0 < dt ∧ dt < 1/10 then
                (if s.average_frame_time_s < 1/1000000 then dt
                 else s.average_frame_time_s) * (98/100) + dt * (2/100)
              else s.average_frame_time_s
            socket_frame_counter := s.socket_frame_counter + 1 }, none) := by
    unfold exchange_data
    simp only [h1, h2, h3, h4, h5]
  rw [hred]
  refine ⟨?_, rfl⟩
  show (if 0 < dt ∧ dt < 1/10 then
          (if s.average_frame_time_s < 1/1000000 then dt
           else s.average_frame_time_s) * (98/100) + dt * (2/100)
        else s.average_frame_time_s) = dt
  rw [if_pos h6, if_pos h7]
  ring

/-- Witness for C3: from the initial session, a reply carrying physics time
`0.02` seeds the average to exactly `1/50`. -/
theorem exchange_data_seed_average_witness :
    (exchange_data initSession (List.replicate 12 0)
        (some (some (mkExchangeReply [] [.mk "m-currentPhysicsTime-SEC" "0.02" []] [])))).1.average_frame_time_s
      = 1/50 ∧
    (exchange_data initSession (List.replicate 12 0)
        (some (some (mkExchangeReply [] [.mk "m-currentPhysicsTime-SEC" "0.02" []] [])))).2
      = none :=
  exchange_data_seed_average initSession (List.replicate 12 0)
    (some (mkExchangeReply [] [.mk "m-currentPhysicsTime-SEC" "0.02" []] []))
    (List.replicate 12 "0.0000") (.num 0)
    ((parse_reply (some (mkExchangeReply [] [.mk "m-currentPhysicsTime-SEC" "0.02" []] []))
        initSession.state).1)
    (.num (Rat.divInt 2 100)) (1/50)
    (by decide) rfl
    (by
      have h : (parse_reply
          (some (mkExchangeReply [] [.mk "m-currentPhysicsTime-SEC" "0.02" []] []))
          initSession.state).2 = none := by decide
      rw [← h])
    (by decide)
    (by simp only [tvSub]; norm_num [Rat.divInt_eq_div])
    (by constructor <;> norm_num)
    (by norm_num [initSession])

/-! ## Claim C8: rejected dt samples -/

/-- C8: on every exchange whose successfully decoded reply yields a
physics-time delta `dt` outside the open interval `(0, 0.1)`, the smoothed
average is left unchanged, while the state (including the stored physics time,
which afterwards holds the newly received value) is still updated and
`socket_frame_counter` is still incremented; the state update and the counter
increment happen for every successfully decoded non-empty reply regardless of
whether the `dt` sample was accepted. -/
theorem exchange_data_updates_always (s : Session) (control : List ℚ)
    (buf : Option XTree) (msg : List String) (lastt : TVal) (st1 : StateMap)
    (newt : TVal) (dt : ℚ)
    (h1 : format_exchange_data control = .ok msg)
    (h2 : dictGet s.state physKey = some lastt)
    (h3 : parse_reply buf s.state = (st1, none))
    (h4 : dictGet st1 physKey = some newt)
    (h5 : tvSub newt lastt = .ok dt) :
    ((exchange_data s control (some buf)).1.state = st1 ∧
     (exchange_data s control (some buf)).1.socket_frame_counter
        = s.socket_frame_counter + 1 ∧
     dictGet (exchange_data s control (some buf)).1.state physKey = some newt ∧
     (exchange_data s control (some buf)).2 = none) ∧
    (¬(0 < dt ∧ dt < 1/10) →
      (exchange_data s control (some buf)).1.average_frame_time_s
        = s.average_frame_time_s) := by
  have hred : exchange_data s control (some buf)
      = ({ s with
            state := st1
            average_frame_time_s :=
              if 0 < dt ∧ dt < 1/10 then
                (if s.average_frame_time_s < 1/1000000 then dt
                 else s.average_frame_time_s) * (98/100) + dt * (2/100)
              else s.average_frame_time_s
            socket_frame_counter := s.socket_frame_counter + 1 }, none) := by
    unfold exchange_data
    simp only [h1, h2, h3, h4, h5]
  rw [hred]
  refine ⟨⟨rfl, rfl, h4, rfl⟩, fun h => ?_⟩
  show (if 0 < dt ∧ dt < 1/10 then
          (if s.average_frame_time_s < 1/1000000 then dt
           else s.average_frame_time_s) * (98/100) + dt * (2/100)
        else s.average_frame_time_s) = s.average_frame_time_s
  rw [if_neg h]

/-- Witness for C8: from the initial session, a reply carrying physics time
`0.5` gives `dt = 1/2 ≥ 0.1`, which is rejected: the average stays unchanged
while the physics time is stored and the counter still increments. -/
theorem exchange_data_updates_always_witness :
    (exchange_data initSession (List.replicate 12 0)
        (some (some (mkExchangeReply [] [.mk "m-currentPhysicsTime-SEC" "0.5" []] [])))).1.average_frame_time_s
      = initSession.average_frame_time_s ∧
    (exchange_data initSession (List.replicate 12 0)
        (some (some (mkExchangeReply [] [.mk "m-currentPhysicsTime-SEC" "0.5" []] [])))).1.socket_frame_counter
      = initSession.socket_frame_counter + 1 ∧
    dictGet (exchange_data initSession (List.replicate 12 0)
        (some (some (mkExchangeReply [] [.mk "m-currentPhysicsTime-SEC" "0.5" []] [])))).1.state
        physKey
      = some (.num (Rat.divInt 5 10)) := by
  have h := exchange_data_updates_always initSession (List.replicate 12 0)
    (some (mkExchangeReply [] [.mk "m-currentPhysicsTime-SEC" "0.5" []] []))
    (List.replicate 12 "0.0000") (.num 0)
    ((parse_reply (some (mkExchangeReply [] [.mk "m-currentPhysicsTime-SEC" "0.5" []] []))
        initSession.state).1)
    (.num (Rat.divInt 5 10)) (1/2)
    (by decide) rfl
    (by
      have h2 : (parse_reply
          (some (mkExchangeReply [] [.mk "m-currentPhysicsTime-SEC" "0.5" []] []))
          initSession.state).2 = none := by decide
      rw [← h2])
    (by decide)
    (by simp only [tvSub]; norm_num [Rat.divInt_eq_div])
  exact ⟨h.2 (by norm_num), h.1.2.1, h.1.2.2.1⟩

/-! ## Decimal printing and parsing lemmas (towards C7 and C9) -/

theorem natValAux_eq (cs : List Char) : ∀ a, natValAux a cs = a * 10 ^ cs.length + natValAux 0 cs := by
  induction cs with
  | nil =>
      intro a
      show a = a * 10 ^ (0 : ℕ) + 0
      ring
  | cons c t ih =>
      intro a
      show natValAux (10 * a + digitVal c) t
        = a * 10 ^ (t.length + 1) + natValAux (10 * 0 + digitVal c) t
      rw [ih (10 * a + digitVal c), ih (10 * 0 + digitVal c)]
      ring

theorem natVal_cons (c : Char) (cs : List Char) :
    natVal (c :: cs) = digitVal c * 10 ^ cs.length + natVal cs := by
  show natValAux (10 * 0 + digitVal c) cs = digitVal c * 10 ^ cs.length + natVal cs
  rw [natValAux_eq]
  unfold natVal
  ring

theorem digitVal_digitChar {d : ℕ} (h : d < 10) : digitVal (digitChar d) = d := by
  interval_cases d <;> decide

theorem isDigit_digitChar {d : ℕ} (h : d < 10) : (digitChar d).isDigit = true := by
  interval_cases d <;> decide

theorem natVal_natToDigitsAux : ∀ (fuel n : ℕ) (acc : List Char), n < fuel →
    natVal (natToDigitsAux fuel n acc) = n * 10 ^ acc.length + natVal acc := by
  intro fuel
  induction fuel with
  | zero => intro n acc h; omega
  | succ f ih =>
      intro n acc h
      unfold natToDigitsAux
      by_cases h10 : n < 10
      · rw [if_pos h10, natVal_cons, digitVal_digitChar h10]
      · rw [if_neg h10]
        have hf : n / 10 < f := by
          have h1 := Nat.div_lt_self (show 0 < n by omega) (show 1 < 10 by omega)
          omega
        rw [ih (n / 10) _ hf]
        rw [natVal_cons, digitVal_digitChar (Nat.mod_lt n (by omega))]
        have hdm := Nat.div_add_mod n 10
        have hlen : (digitChar (n % 10) :: acc).length = acc.length + 1 := rfl
        rw [hlen]
        have hsplit : n / 10 * 10 ^ (acc.length + 1) + n % 10 * 10 ^ acc.length
            = n * 10 ^ acc.length := by
          calc n / 10 * 10 ^ (acc.length + 1) + n % 10 * 10 ^ acc.length
              = (10 * (n / 10) + n % 10) * 10 ^ acc.length := by ring
            _ = n * 10 ^ acc.length := by rw [hdm]
        omega

theorem mem_natToDigitsAux : ∀ (fuel n : ℕ) (acc : List Char) (c : Char),
    c ∈ natToDigitsAux fuel n acc → c ∈ acc ∨ c.isDigit = true := by
  intro fuel
  induction fuel with
  | zero => intro n acc c h; exact Or.inl h
  | succ f ih =>
      intro n acc c h
      unfold natToDigitsAux at h
      by_cases h10 : n < 10
      · rw [if_pos h10] at h
        rcases List.mem_cons.mp h with rfl | h2
        · exact Or.inr (isDigit_digitChar h10)
        · exact Or.inl h2
      · rw [if_neg h10] at h
        rcases ih _ _ _ h with h2 | h2
        · rcases List.mem_cons.mp h2 with rfl | h3
          · exact Or.inr (isDigit_digitChar (Nat.mod_lt n (by omega)))
          · exact Or.inl h3
        · exact Or.inr h2

theorem natToDigitsAux_ne_nil : ∀ (fuel n : ℕ) (acc : List Char), n < fuel →
    natToDigitsAux fuel n acc ≠ [] := by
  intro fuel
  induction fuel with
  | zero => intro n acc h; omega
  | succ f ih =>
      intro n acc h
      unfold natToDigitsAux
      by_cases h10 : n < 10
      · rw [if_pos h10]; simp
      · rw [if_neg h10]
        refine ih _ _ ?_
        have h1 := Nat.div_lt_self (show 0 < n by omega) (show 1 < 10 by omega)
        omega

theorem natVal_natToDigits (n : ℕ) : natVal (natToDigits n) = n := by
  have h := natVal_natToDigitsAux (n + 1) n [] (by omega)
  show natVal (natToDigitsAux (n + 1) n []) = n
  rw [h]
  show n * 10 ^ (0 : ℕ) + 0 = n
  ring

theorem digits_natToDigits {n : ℕ} {c : Char} (h : c ∈ natToDigits n) : c.isDigit = true := by
  rcases mem_natToDigitsAux (n + 1) n [] c h with h2 | h2
  · simp at h2
  · exact h2

theorem natToDigits_ne_nil (n : ℕ) : natToDigits n ≠ [] :=
  natToDigitsAux_ne_nil (n + 1) n [] (by omega)

theorem isDigit_frac4 {k : ℕ} {c : Char} (h : c ∈ frac4 k) : c.isDigit = true := by
  rcases (by simpa [frac4] using h : c = digitChar (k / 1000 % 10) ∨
      c = digitChar (k / 100 % 10) ∨ c = digitChar (k / 10 % 10) ∨ c = digitChar (k % 10))
    with rfl | rfl | rfl | rfl <;>
    exact isDigit_digitChar (Nat.mod_lt _ (by omega))

theorem natVal_frac4 {k : ℕ} (h : k < 10000) : natVal (frac4 k) = k := by
  have d1 := digitVal_digitChar (Nat.mod_lt (k / 1000) (show 0 < 10 by omega))
  have d2 := digitVal_digitChar (Nat.mod_lt (k / 100) (show 0 < 10 by omega))
  have d3 := digitVal_digitChar (Nat.mod_lt (k / 10) (show 0 < 10 by omega))
  have d4 := digitVal_digitChar (Nat.mod_lt k (show 0 < 10 by omega))
  simp only [frac4, natVal_cons, List.length_cons, List.length_nil, d1, d2, d3, d4]
  have hnil : natVal ([] : List Char) = 0 := rfl
  rw [hnil]
  omega

theorem frac4_length (k : ℕ) : (frac4 k).length = 4 := rfl

theorem frac4_ne_nil (k : ℕ) : frac4 k ≠ [] := by simp [frac4]

theorem takeWhile_digits_dot (ds tl : List Char) (h : ∀ c ∈ ds, c.isDigit = true) :
    (ds ++ '.' :: tl).takeWhile Char.isDigit = ds ∧
    (ds ++ '.' :: tl).dropWhile Char.isDigit = '.' :: tl := by
  have hdot : ('.' : Char).isDigit = false := by decide
  induction ds with
  | nil => simp [List.takeWhile_cons, List.dropWhile_cons, hdot]
  | cons c cs ih =>
      have hc : c.isDigit = true := h c (by simp)
      have ih2 := ih (fun x hx => h x (by simp [hx]))
      simp [List.takeWhile_cons, List.dropWhile_cons, hc, ih2.1, ih2.2]

theorem pyFloatPos_digits_dot (ds fs : List Char)
    (hds : ∀ c ∈ ds, c.isDigit = true) (hfs : ∀ c ∈ fs, c.isDigit = true)
    (hne : fs ≠ []) :
    pyFloatPos (ds ++ '.' :: fs)
      = some (Rat.divInt (natVal ds * 10 ^ fs.length + natVal fs) (10 ^ fs.length)) := by
  obtain ⟨ht, hd⟩ := takeWhile_digits_dot ds fs hds
  have hall : fs.all Char.isDigit = true := List.all_eq_true.mpr (fun c hc => hfs c hc)
  have hemp : fs.isEmpty = false := by
    cases fs with
    | nil => exact absurd rfl hne
    | cons a l => rfl
  unfold pyFloatPos
  simp only [ht, hd, hall, hemp, Bool.and_false, Bool.not_false, Bool.true_and, if_true]

theorem filter_keeps_digits (l : List Char) (h : ∀ c ∈ l, c.isDigit = true) :
    (l.filter (fun c => c != '.')).filter (fun c => c != '-') = l := by
  have h1 : l.filter (fun c => c != '.') = l := by
    rw [List.filter_eq_self]
    intro c hc
    rcases eq_or_ne c '.' with rfl | hne
    · exact absurd (h _ hc) (by decide)
    · simp [hne]
  rw [h1, List.filter_eq_self]
  intro c hc
  rcases eq_or_ne c '-' with rfl | hne
  · exact absurd (h _ hc) (by decide)
  · simp [hne]

theorem strip_fmt4 (q : ℚ) :
    ((fmt4 q).data.filter (fun c => c != '.')).filter (fun c => c != '-')
      = natToDigits ((round4Int q).natAbs / 10000)
        ++ frac4 ((round4Int q).natAbs % 10000) := by
  have hds : ∀ c ∈ natToDigits ((round4Int q).natAbs / 10000), c.isDigit = true :=
    fun c hc => digits_natToDigits hc
  have hfs : ∀ c ∈ frac4 ((round4Int q).natAbs % 10000), c.isDigit = true :=
    fun c hc => isDigit_frac4 hc
  show ((((if round4Int q < 0 then ['-'] else []) ++
      natToDigits ((round4Int q).natAbs / 10000) ++
      '.' :: frac4 ((round4Int q).natAbs % 10000)).filter
        (fun c => c != '.')).filter (fun c => c != '-'))
      = natToDigits ((round4Int q).natAbs / 10000)
        ++ frac4 ((round4Int q).natAbs % 10000)
  rw [List.filter_append, List.filter_append, List.filter_append, List.filter_append]
  have hsign : (((if round4Int q < 0 then ['-'] else []) : List Char).filter
      (fun c => c != '.')).filter (fun c => c != '-') = [] := by
    by_cases hneg : round4Int q < 0 <;> simp [hneg]
  have hmid := filter_keeps_digits _ hds
  have hdot : (('.' :: frac4 ((round4Int q).natAbs % 10000)).filter
      (fun c => c != '.')).filter (fun c => c != '-')
      = frac4 ((round4Int q).natAbs % 10000) := by
    rw [List.filter_cons]
    simp only [bne_self_eq_false, if_false, reduceIte]
    exact filter_keeps_digits _ hfs
  rw [hsign, hmid, hdot]
  simp

theorem is_number_fmt4 (q : ℚ) : is_number (fmt4 q) = true := by
  unfold is_number
  rw [strip_fmt4]
  have hemp : (natToDigits ((round4Int q).natAbs / 10000)
      ++ frac4 ((round4Int q).natAbs % 10000)).isEmpty = false := by
    rw [List.isEmpty_eq_false]
    simp [frac4]
  have hall : (natToDigits ((round4Int q).natAbs / 10000)
      ++ frac4 ((round4Int q).natAbs % 10000)).all Char.isDigit = true := by
    rw [List.all_append, Bool.and_eq_true]
    exact ⟨List.all_eq_true.mpr (fun c hc => digits_natToDigits hc),
      List.all_eq_true.mpr (fun c hc => isDigit_frac4 hc)⟩
  show (!(natToDigits ((round4Int q).natAbs / 10000)
      ++ frac4 ((round4Int q).natAbs % 10000)).isEmpty &&
    (natToDigits ((round4Int q).natAbs / 10000)
      ++ frac4 ((round4Int q).natAbs % 10000)).all Char.isDigit) = true
  rw [hemp, hall]
  decide

theorem pyFloat_fmt4 (q : ℚ) : pyFloat (fmt4 q).data = some (round4 q) := by
  have hds : ∀ c ∈ natToDigits ((round4Int q).natAbs / 10000), c.isDigit = true :=
    fun c hc => digits_natToDigits hc
  have hfs : ∀ c ∈ frac4 ((round4Int q).natAbs % 10000), c.isDigit = true :=
    fun c hc => isDigit_frac4 hc
  have hpos := pyFloatPos_digits_dot _ _ hds hfs (frac4_ne_nil ((round4Int q).natAbs % 10000))
  rw [frac4_length] at hpos
  have hval : ((natVal (natToDigits ((round4Int q).natAbs / 10000)) : ℤ) * 10 ^ (4 : ℕ) +
      (natVal (frac4 ((round4Int q).natAbs % 10000)) : ℤ)) = ((round4Int q).natAbs : ℤ) := by
    rw [natVal_natToDigits, natVal_frac4 (Nat.mod_lt _ (by omega))]
    exact_mod_cast (by omega :
      (round4Int q).natAbs / 10000 * 10 ^ 4 + (round4Int q).natAbs % 10000
        = (round4Int q).natAbs)
  rw [hval] at hpos
  have hden : ((10 : ℤ) ^ (4 : ℕ)) = 10000 := by norm_num
  rw [hden] at hpos
  by_cases hneg : round4Int q < 0
  · have hshow : (fmt4 q).data = '-' :: (natToDigits ((round4Int q).natAbs / 10000)
        ++ '.' :: frac4 ((round4Int q).natAbs % 10000)) := by
      show ((if round4Int q < 0 then ['-'] else []) ++
          natToDigits ((round4Int q).natAbs / 10000) ++
          '.' :: frac4 ((round4Int q).natAbs % 10000))
        = '-' :: (natToDigits ((round4Int q).natAbs / 10000)
            ++ '.' :: frac4 ((round4Int q).natAbs % 10000))
      rw [if_pos hneg]
      rfl
    rw [hshow]
    show (if ('-' : Char) = '-' then
        (pyFloatPos (natToDigits ((round4Int q).natAbs / 10000)
          ++ '.' :: frac4 ((round4Int q).natAbs % 10000))).map (fun x => -x)
      else pyFloatPos ('-' :: (natToDigits ((round4Int q).natAbs / 10000)
          ++ '.' :: frac4 ((round4Int q).natAbs % 10000)))) = some (round4 q)
    rw [if_pos rfl]
    rw [hpos]
    have hm : -(((round4Int q).natAbs : ℤ)) = round4Int q := by omega
    show some (-(Rat.divInt ((round4Int q).natAbs : ℤ) 10000)) = some (round4 q)
    rw [show -(Rat.divInt ((round4Int q).natAbs : ℤ) 10000)
        = Rat.divInt (-((round4Int q).natAbs : ℤ)) 10000 from Rat.neg_divInt _ _, hm]
    rfl
  · have hshow : (fmt4 q).data = natToDigits ((round4Int q).natAbs / 10000)
        ++ '.' :: frac4 ((round4Int q).natAbs % 10000) := by
      show ((if round4Int q < 0 then ['-'] else []) ++
          natToDigits ((round4Int q).natAbs / 10000) ++
          '.' :: frac4 ((round4Int q).natAbs % 10000))
        = natToDigits ((round4Int q).natAbs / 10000)
            ++ '.' :: frac4 ((round4Int q).natAbs % 10000)
      rw [if_neg hneg]
      rfl
    rw [hshow]
    obtain ⟨c, cs2, hcons⟩ :=
      List.exists_cons_of_ne_nil (natToDigits_ne_nil ((round4Int q).natAbs / 10000))
    have hcd : c.isDigit = true := hds c (by rw [hcons]; simp)
    have hcne : ¬(c = '-') := by
      rintro rfl
      exact absurd hcd (by decide)
    rw [hcons, List.cons_append]
    show (if c = '-' then
        (pyFloatPos (cs2 ++ '.' :: frac4 ((round4Int q).natAbs % 10000))).map (fun x => -x)
      else pyFloatPos (c :: (cs2 ++ '.' :: frac4 ((round4Int q).natAbs % 10000))))
        = some (round4 q)
    rw [if_neg hcne]
    rw [← List.cons_append, ← hcons, hpos]
    have hm : (((round4Int q).natAbs : ℤ)) = round4Int q :=
      Int.natAbs_of_nonneg (by omega)
    rw [hm]
    rfl

theorem parse_tail_fmt4 (q : ℚ) : parse_tail (fmt4 q) = .ok (.num (round4 q)) := by
  unfold parse_tail
  rw [if_pos (is_number_fmt4 q), pyFloat_fmt4]

theorem abs_round4_sub (q : ℚ) : |round4 q - q| ≤ 1 / 20000 := by
  have hNdef : round4Int q
      = (2 * (q.num * 10000) + (q.den : ℤ)) / (2 * (q.den : ℤ)) := rfl
  have hbz : (0 : ℤ) < 2 * (q.den : ℤ) := by
    have := q.pos
    omega
  have hdiv := Int.ediv_add_emod (2 * (q.num * 10000) + (q.den : ℤ)) (2 * (q.den : ℤ))
  have hm1 : 0 ≤ (2 * (q.num * 10000) + (q.den : ℤ)) % (2 * (q.den : ℤ)) :=
    Int.emod_nonneg _ (by omega)
  have hm2 : (2 * (q.num * 10000) + (q.den : ℤ)) % (2 * (q.den : ℤ)) < 2 * (q.den : ℤ) :=
    Int.emod_lt_of_pos _ hbz
  have hlow : 2 * (q.den : ℤ) * round4Int q ≤ 2 * (q.num * 10000) + (q.den : ℤ) := by
    rw [hNdef]
    linarith [hdiv, hm1]
  have hhigh : 2 * (q.num * 10000) + (q.den : ℤ)
      < 2 * (q.den : ℤ) * round4Int q + 2 * (q.den : ℤ) := by
    rw [hNdef]
    linarith [hdiv, hm2]
  have hbq : (0 : ℚ) < (q.den : ℚ) := by exact_mod_cast q.pos
  have hlowq : 2 * (q.den : ℚ) * ((round4Int q : ℤ) : ℚ)
      ≤ 2 * ((q.num : ℚ) * 10000) + (q.den : ℚ) := by exact_mod_cast hlow
  have hhighq : 2 * ((q.num : ℚ) * 10000) + (q.den : ℚ)
      < 2 * (q.den : ℚ) * ((round4Int q : ℤ) : ℚ) + 2 * (q.den : ℚ) := by
    exact_mod_cast hhigh
  have hnum : (q.num : ℚ) = q * (q.den : ℚ) := by
    have h := Rat.num_div_den q
    rw [div_eq_iff (ne_of_gt hbq)] at h
    exact h
  rw [hnum] at hlowq hhighq
  have h1 : ((round4Int q : ℤ) : ℚ) ≤ q * 10000 + 1/2 := by nlinarith [hbq]
  have h2 : q * 10000 - 1/2 ≤ ((round4Int q : ℤ) : ℚ) := by nlinarith [hbq]
  rw [round4, Rat.divInt_eq_div]
  rw [abs_le]
  constructor
  · push_cast
    linarith [h2]
  · push_cast
    linarith [h1]

/-! ## Claim C7: value coercion -/

/-- C7: `parse_tail` parses every string passing the digits-dot-minus character
test (`is_number`) with `float`: a successful parse yields that float value
(`"1000"` ↦ 1000.0, `"-0.5"` ↦ −0.5), and a parse failure (`"1.2.3"`, `"--1"`)
raises a hard `ValueError` — the string is never silently passed through;
exactly `"true"`/`"false"` become the booleans, and every other string passes
through unchanged (`"CAS-FLYING"`). -/
theorem parse_tail_spec :
    (∀ (s : String) (q : ℚ), is_number s = true → pyFloat s.data = some q →
        parse_tail s = .ok (.num q)) ∧
    (∀ s : String, is_number s = true → pyFloat s.data = none →
        parse_tail s = .error .valueError) ∧
    (∀ s : String, is_number s = false → s ≠ "true" → s ≠ "false" →
        parse_tail s = .ok (.str s)) ∧
    parse_tail "true" = .ok (.bool true) ∧
    parse_tail "false" = .ok (.bool false) ∧
    parse_tail "1000" = .ok (.num 1000) ∧
    parse_tail "-0.5" = .ok (.num (-(1/2))) ∧
    parse_tail "1.2.3" = .error .valueError ∧
    parse_tail "--1" = .error .valueError ∧
    parse_tail "CAS-FLYING" = .ok (.str "CAS-FLYING") := by
  refine ⟨?_, ?_, ?_, by decide, by decide, ?_, ?_, by decide, by decide, by decide⟩
  · intro s q h hp
    unfold parse_tail
    rw [if_pos h, hp]
  · intro s h hp
    unfold parse_tail
    rw [if_pos h, hp]
  · intro s h ht hf
    unfold parse_tail
    rw [if_neg (by simp [h]), if_neg ht, if_neg hf]
  · have h : parse_tail "1000" = .ok (.num (Rat.divInt 1000 1)) := by decide
    rw [h]
    norm_num [Rat.divInt_eq_div]
  · have h : parse_tail "-0.5" = .ok (.num (-(Rat.divInt 5 10))) := by decide
    rw [h]
    norm_num [Rat.divInt_eq_div]

/-- Witness for C7 at the concrete numeric-looking string `"0.25"`. -/
theorem parse_tail_spec_witness :
    parse_tail "0.25" = .ok (.num (Rat.divInt 25 100)) :=
  parse_tail_spec.1 "0.25" (Rat.divInt 25 100) (by decide) (by decide)

/-! ## Claim C9: encode/decode round trip -/

theorem runItems_cons_parsed {t : String} {v : TVal} (h : parse_tail t = .ok v)
    (ch rest : List XTree) (c : ℕ) (st : StateMap) :
    runItems (XTree.mk "item" t ch :: rest) c st
      = runItems rest (c + 1) (dictSet st ("rcin" ++ toString c) v) := by
  show (if (XTree.mk "item" t ch).tag = "item" then
      match parse_tail (XTree.mk "item" t ch).text with
      | .error e => (st, some e)
      | .ok v => runItems rest (c + 1) (dictSet st ("rcin" ++ toString c) v)
    else runItems rest c st)
      = runItems rest (c + 1) (dictSet st ("rcin" ++ toString c) v)
  rw [if_pos (show (XTree.mk "item" t ch).tag = "item" from rfl)]
  show (match parse_tail t with
      | .error e => (st, some e)
      | .ok v => runItems rest (c + 1) (dictSet st ("rcin" ++ toString c) v))
      = runItems rest (c + 1) (dictSet st ("rcin" ++ toString c) v)
  rw [h]

theorem parse_reply_mkReply (ts : List String) (st st1 : StateMap)
    (h : runItems (ts.map (fun t => XTree.mk "item" t [])) 0 st = (st1, none)) :
    parse_reply (some (mkExchangeReply ts [] [])) st = (st1, none) := by
  unfold parse_reply parseRoot mkExchangeReply
  simp only [XTree.children, XTree.tag, List.getElem?_cons_zero, List.getElem?_cons_succ,
    runChannels, runTags, eq_self_iff_true, if_true, h]

/-- C9: for every 12-element vector of channel values, a reply-shaped document
whose channel-values block carries those values formatted with 4 decimal
places — exactly the strings the `ExchangeData` encoder produces — decodes
into `rcin0..rcin11` holding the 4-decimal roundings of the original values,
in channel order, and each stored value is within the `5e-5` rounding
tolerance of the original. -/
theorem c9_roundtrip (q0 q1 q2 q3 q4 q5 q6 q7 q8 q9 q10 q11 : ℚ) :
    format_exchange_data [q0, q1, q2, q3, q4, q5, q6, q7, q8, q9, q10, q11]
      = .ok [fmt4 q0, fmt4 q1, fmt4 q2, fmt4 q3, fmt4 q4, fmt4 q5,
             fmt4 q6, fmt4 q7, fmt4 q8, fmt4 q9, fmt4 q10, fmt4 q11] ∧
    (parse_reply (some (mkExchangeReply [fmt4 q0, fmt4 q1, fmt4 q2, fmt4 q3,
        fmt4 q4, fmt4 q5, fmt4 q6, fmt4 q7, fmt4 q8, fmt4 q9, fmt4 q10, fmt4 q11]
        [] [])) initState).2 = none ∧
    dictGet (parse_reply (some (mkExchangeReply [fmt4 q0, fmt4 q1, fmt4 q2, fmt4 q3,
        fmt4 q4, fmt4 q5, fmt4 q6, fmt4 q7, fmt4 q8, fmt4 q9, fmt4 q10, fmt4 q11]
        [] [])) initState).1 "rcin0" = some (.num (round4 q0)) ∧
    dictGet (parse_reply (some (mkExchangeReply [fmt4 q0, fmt4 q1, fmt4 q2, fmt4 q3,
        fmt4 q4, fmt4 q5, fmt4 q6, fmt4 q7, fmt4 q8, fmt4 q9, fmt4 q10, fmt4 q11]
        [] [])) initState).1 "rcin1" = some (.num (round4 q1)) ∧
    dictGet (parse_reply (some (mkExchangeReply [fmt4 q0, fmt4 q1, fmt4 q2, fmt4 q3,
        fmt4 q4, fmt4 q5, fmt4 q6, fmt4 q7, fmt4 q8, fmt4 q9, fmt4 q10, fmt4 q11]
        [] [])) initState).1 "rcin2" = some (.num (round4 q2)) ∧
    dictGet (parse_reply (some (mkExchangeReply [fmt4 q0, fmt4 q1, fmt4 q2, fmt4 q3,
        fmt4 q4, fmt4 q5, fmt4 q6, fmt4 q7, fmt4 q8, fmt4 q9, fmt4 q10, fmt4 q11]
        [] [])) initState).1 "rcin3" = some (.num (round4 q3)) ∧
    dictGet (parse_reply (some (mkExchangeReply [fmt4 q0, fmt4 q1, fmt4 q2, fmt4 q3,
        fmt4 q4, fmt4 q5, fmt4 q6, fmt4 q7, fmt4 q8, fmt4 q9, fmt4 q10, fmt4 q11]
        [] [])) initState).1 "rcin4" = some (.num (round4 q4)) ∧
    dictGet (parse_reply (some (mkExchangeReply [fmt4 q0, fmt4 q1, fmt4 q2, fmt4 q3,
        fmt4 q4, fmt4 q5, fmt4 q6, fmt4 q7, fmt4 q8, fmt4 q9, fmt4 q10, fmt4 q11]
        [] [])) initState).1 "rcin5" = some (.num (round4 q5)) ∧
    dictGet (parse_reply (some (mkExchangeReply [fmt4 q0, fmt4 q1, fmt4 q2, fmt4 q3,
        fmt4 q4, fmt4 q5, fmt4 q6, fmt4 q7, fmt4 q8, fmt4 q9, fmt4 q10, fmt4 q11]
        [] [])) initState).1 "rcin6" = some (.num (round4 q6)) ∧
    dictGet (parse_reply (some (mkExchangeReply [fmt4 q0, fmt4 q1, fmt4 q2, fmt4 q3,
        fmt4 q4, fmt4 q5, fmt4 q6, fmt4 q7, fmt4 q8, fmt4 q9, fmt4 q10, fmt4 q11]
        [] [])) initState).1 "rcin7" = some (.num (round4 q7)) ∧
    dictGet (parse_reply (some (mkExchangeReply [fmt4 q0, fmt4 q1, fmt4 q2, fmt4 q3,
        fmt4 q4, fmt4 q5, fmt4 q6, fmt4 q7, fmt4 q8, fmt4 q9, fmt4 q10, fmt4 q11]
        [] [])) initState).1 "rcin8" = some (.num (round4 q8)) ∧
    dictGet (parse_reply (some (mkExchangeReply [fmt4 q0, fmt4 q1, fmt4 q2, fmt4 q3,
        fmt4 q4, fmt4 q5, fmt4 q6, fmt4 q7, fmt4 q8, fmt4 q9, fmt4 q10, fmt4 q11]
        [] [])) initState).1 "rcin9" = some (.num (round4 q9)) ∧
    dictGet (parse_reply (some (mkExchangeReply [fmt4 q0, fmt4 q1, fmt4 q2, fmt4 q3,
        fmt4 q4, fmt4 q5, fmt4 q6, fmt4 q7, fmt4 q8, fmt4 q9, fmt4 q10, fmt4 q11]
        [] [])) initState).1 "rcin10" = some (.num (round4 q10)) ∧
    dictGet (parse_reply (some (mkExchangeReply [fmt4 q0, fmt4 q1, fmt4 q2, fmt4 q3,
        fmt4 q4, fmt4 q5, fmt4 q6, fmt4 q7, fmt4 q8, fmt4 q9, fmt4 q10, fmt4 q11]
        [] [])) initState).1 "rcin11" = some (.num (round4 q11)) ∧
    |round4 q0 - q0| ≤ 1/20000 ∧ |round4 q1 - q1| ≤ 1/20000 ∧
    |round4 q2 - q2| ≤ 1/20000 ∧ |round4 q3 - q3| ≤ 1/20000 ∧
    |round4 q4 - q4| ≤ 1/20000 ∧ |round4 q5 - q5| ≤ 1/20000 ∧
    |round4 q6 - q6| ≤ 1/20000 ∧ |round4 q7 - q7| ≤ 1/20000 ∧
    |round4 q8 - q8| ≤ 1/20000 ∧ |round4 q9 - q9| ≤ 1/20000 ∧
    |round4 q10 - q10| ≤ 1/20000 ∧ |round4 q11 - q11| ≤ 1/20000 := by
  have hrun : runItems ([fmt4 q0, fmt4 q1, fmt4 q2, fmt4 q3, fmt4 q4, fmt4 q5,
      fmt4 q6, fmt4 q7, fmt4 q8, fmt4 q9, fmt4 q10, fmt4 q11].map
        (fun t => XTree.mk "item" t [])) 0 initState
      = (dictSet (dictSet (dictSet (dictSet (dictSet (dictSet (dictSet (dictSet
          (dictSet (dictSet (dictSet (dictSet initState
          "rcin0" (.num (round4 q0)))
          "rcin1" (.num (round4 q1)))
          "rcin2" (.num (round4 q2)))
          "rcin3" (.num (round4 q3)))
          "rcin4" (.num (round4 q4)))
          "rcin5" (.num (round4 q5)))
          "rcin6" (.num (round4 q6)))
          "rcin7" (.num (round4 q7)))
          "rcin8" (.num (round4 q8)))
          "rcin9" (.num (round4 q9)))
          "rcin10" (.num (round4 q10)))
          "rcin11" (.num (round4 q11)), none) := by
    simp only [List.map_cons, List.map_nil]
    rw [runItems_cons_parsed (parse_tail_fmt4 q0),
        runItems_cons_parsed (parse_tail_fmt4 q1),
        runItems_cons_parsed (parse_tail_fmt4 q2),
        runItems_cons_parsed (parse_tail_fmt4 q3),
        runItems_cons_parsed (parse_tail_fmt4 q4),
        runItems_cons_parsed (parse_tail_fmt4 q5),
        runItems_cons_parsed (parse_tail_fmt4 q6),
        runItems_cons_parsed (parse_tail_fmt4 q7),
        runItems_cons_parsed (parse_tail_fmt4 q8),
        runItems_cons_parsed (parse_tail_fmt4 q9),
        runItems_cons_parsed (parse_tail_fmt4 q10),
        runItems_cons_parsed (parse_tail_fmt4 q11)]
    rfl
  have hP := parse_reply_mkReply [fmt4 q0, fmt4 q1, fmt4 q2, fmt4 q3, fmt4 q4, fmt4 q5,
      fmt4 q6, fmt4 q7, fmt4 q8, fmt4 q9, fmt4 q10, fmt4 q11] initState _ hrun
  refine ⟨rfl, by rw [hP], ?_, ?_, ?_, ?_, ?_, ?_, ?_, ?_, ?_, ?_, ?_, ?_,
    abs_round4_sub q0, abs_round4_sub q1, abs_round4_sub q2, abs_round4_sub q3,
    abs_round4_sub q4, abs_round4_sub q5, abs_round4_sub q6, abs_round4_sub q7,
    abs_round4_sub q8, abs_round4_sub q9, abs_round4_sub q10, abs_round4_sub q11⟩ <;>
  · rw [hP]
    simp [dictGet_dictSet]
